import Mathlib

/-
  Shallow embedding of the lunal-attestation repository
  (pkg/attestation/attestation.go and pkg/attestation/verify.go).

  Conventions:
  * Go byte slices are `List Nat`; a nil slice and an empty slice are both `[]`
    (Go `len` cannot tell them apart and the source only tests `len`).
  * Go `(value, error)` returns of external collaborators are `Except String α`.
  * The repository functions that return `(value, error)` pairs are embedded as
    `Option α × Option String` (Attest additionally may panic, see `GoResult`).
  * External collaborators (protobuf codec, tpm2, go-tpm-tools client/server,
    the metadata service and the TEE verifiers) are capability fields of `Env`.
-/

/-- GCEConfidentialTechnology enum from go-tpm-tools proto/attest. -/
inductive GCEConfidentialTechnology where
  | NONE
  | AMD_SEV
  | AMD_SEV_ES
  | AMD_SEV_SNP
  | INTEL_TDX
deriving DecidableEq, Repr

/-- Opaque SEV-SNP attestation payload (sevsnp.Attestation). -/
structure SevSnpAttestation where
  reportRaw : List Nat
deriving DecidableEq, Repr

/-- Opaque TDX quote payload (tdx.QuoteV4). -/
structure TdxQuoteV4 where
  quoteRaw : List Nat
deriving DecidableEq, Repr

/-- The tee_attestation oneof of pb.Attestation. A nil Go interface value
    (no evidence populated) is `unset`. -/
inductive TeeAttestationOneof where
  | unset
  | sevSnpAttestation (a : SevSnpAttestation)
  | tdxAttestation (q : TdxQuoteV4)
deriving DecidableEq, Repr

/-- GCEInstanceInfo proto message. -/
structure GCEInstanceInfo where
  projectId : String
  projectNumber : Nat
  zone : String
  instanceId : Nat
  instanceName : String
deriving DecidableEq, Repr

/-- pb.Attestation wire record. Quote and event log contents are opaque here. -/
structure Attestation where
  akPub : List Nat
  quote : List Nat
  eventLog : List Nat
  instanceInfo : Option GCEInstanceInfo := Option.none
  teeAttestation : TeeAttestationOneof := TeeAttestationOneof.unset
deriving DecidableEq, Repr

/-- pb.PlatformState: only the Technology field matters to this core. -/
structure PlatformState where
  technology : GCEConfidentialTechnology := GCEConfidentialTechnology.NONE
deriving DecidableEq, Repr

/-- The tee_attestation oneof of pb.MachineState. -/
inductive MachineStateTee where
  | unset
  | sevSnpAttestation (a : SevSnpAttestation)
  | tdxAttestation (q : TdxQuoteV4)
deriving DecidableEq, Repr

/-- pb.MachineState. The platform field is a nullable proto message. -/
structure MachineState where
  platform : Option PlatformState := Option.none
  teeAttestation : MachineStateTee := MachineStateTee.unset
deriving DecidableEq, Repr

/-- ms.GetPlatform().Technology: the generated nil-safe getter yields the
    empty message, whose Technology is NONE, when platform is nil. -/
def MachineState.getPlatformTechnology (ms : MachineState) : GCEConfidentialTechnology :=
  match ms.platform with
  | Option.some p => p.technology
  | Option.none => GCEConfidentialTechnology.NONE

/-- Validation option set for TDX evidence. Modelled from the spec:
    the per-technology Validation set carries the expected report-data value
    (its builder is not under src/). -/
structure TdxValidateOpts where
  expectedReportData : List Nat
deriving DecidableEq, Repr

/-- Validation option set for SEV-SNP evidence. Modelled from the spec:
    the per-technology Validation set carries the expected report-data value
    (its builder is not under src/). -/
structure SnpValidateOpts where
  expectedReportData : List Nat
deriving DecidableEq, Repr

/-- Verification option value for TDX: the source always passes
    tv.DefaultOptions(). -/
inductive TdxVerification where
  | defaultOptions
deriving DecidableEq, Repr

/-- Verification option value for SEV-SNP: the source always passes the zero
    value of sv.Options. -/
inductive SnpVerification where
  | emptyOptions
deriving DecidableEq, Repr

/-- verifyTdxOpts record built in verifyGceTechnology. -/
structure verifyTdxOpts where
  Validation : TdxValidateOpts
  Verification : TdxVerification
deriving DecidableEq, Repr

/-- verifySnpOpts record built in verifyGceTechnology. -/
structure verifySnpOpts where
  Validation : SnpValidateOpts
  Verification : SnpVerification
deriving DecidableEq, Repr

/-- Modelled from the spec: tdxDefaultValidateOpts (not under src/) builds the
    TDX Validation set whose expected report-data value is the given nonce. -/
def tdxDefaultValidateOpts (nonce : List Nat) : TdxValidateOpts :=
  { expectedReportData := nonce }

/-- Modelled from the spec: sevSnpDefaultValidateOpts (not under src/) builds
    the SEV-SNP Validation set whose expected report-data value is the given
    nonce. -/
def sevSnpDefaultValidateOpts (nonce : List Nat) : SnpValidateOpts :=
  { expectedReportData := nonce }

/-- Decoded tpm2.Public structure (opaque). -/
structure TPM2Public where
  raw : List Nat
deriving DecidableEq, Repr

/-- crypto.PublicKey value (opaque). -/
structure CryptoPublicKey where
  id : Nat
deriving DecidableEq, Repr

/-- client.Key handle (opaque). -/
structure ClientKey where
  id : Nat
deriving DecidableEq, Repr

/-- TEE hardware evidence provider handle (opaque). -/
structure TEEDevice where
  id : Nat
deriving DecidableEq, Repr

/-- client.AttestOpts as populated by Attest. -/
structure ClientAttestOpts where
  nonce : List Nat := []
  teeDevice : Option TEEDevice := Option.none
  teeNonce : List Nat := []
  tcgEventLog : List Nat := []
deriving DecidableEq, Repr

/-- server.VerifyOpts from go-tpm-tools. -/
structure ServerVerifyOpts where
  Nonce : List Nat
  TrustedAKs : List CryptoPublicKey
deriving DecidableEq, Repr

/-- Capability environment: every external collaborator the two repository
    files call, plus the two TEE verifier wrappers that the repository
    declares outside src/ (modelled from the spec as opaque fallible calls
    receiving the evidence and the option set built by verifyGceTechnology). -/
structure Env where
  openTPM : Except String Unit
  attestationKeyRSA : Except String ClientKey
  attestationKeyECC : Except String ClientKey
  gceAttestationKeyRSA : Except String ClientKey
  gceAttestationKeyECC : Except String ClientKey
  createSevSnpQuoteProvider : Except String TEEDevice
  createTdxQuoteProvider : Except String TEEDevice
  getEventLog : Except String (List Nat)
  keyAttest : ClientKey → ClientAttestOpts → Except String Attestation
  projectID : Except String String
  numericProjectID : Except String String
  zone : Except String String
  instanceID : Except String String
  instanceName : Except String String
  parseUint : String → Except String Nat
  protoMarshal : Attestation → Except String (List Nat)
  prototextFormat : Attestation → List Nat
  fmtAttestation : Attestation → String
  protoUnmarshal : List Nat → Except String Attestation
  prototextUnmarshalDiscard : List Nat → Except String Attestation
  prototextUnmarshal : List Nat → Except String Attestation
  decodePublic : List Nat → Except String TPM2Public
  publicKey : TPM2Public → Except String CryptoPublicKey
  serverVerifyAttestation : Attestation → ServerVerifyOpts → Except String MachineState
  verifyTdxAttestation : TdxQuoteV4 → verifyTdxOpts → Except String Unit
  verifySevSnpAttestation : SevSnpAttestation → verifySnpOpts → Except String Unit

/-- Go %T rendering of the tee_attestation oneof value. -/
def goTypeName : TeeAttestationOneof → String
  | TeeAttestationOneof.unset => "<nil>"
  | TeeAttestationOneof.sevSnpAttestation _ => "*attest.Attestation_SevSnpAttestation"
  | TeeAttestationOneof.tdxAttestation _ => "*attest.Attestation_TdxAttestation"

/-- parseTEEAttestation from verify.go: for SEV-SNP and TDX technologies it
    requires the matching evidence variant and copies it (proto.Clone is the
    identity on pure values) into a fresh MachineState; every other technology
    value falls into the default branch returning the empty MachineState. -/
def parseTEEAttestation (attestation : Attestation) (tech : GCEConfidentialTechnology) :
    Except String MachineState :=
  match tech with
  | GCEConfidentialTechnology.AMD_SEV_SNP =>
    match attestation.teeAttestation with
    | TeeAttestationOneof.sevSnpAttestation tee =>
        Except.ok { teeAttestation := MachineStateTee.sevSnpAttestation tee }
    | other =>
        Except.error ("TEE attestation is " ++ goTypeName other ++ ", expected a SevSnpAttestation")
  | GCEConfidentialTechnology.INTEL_TDX =>
    match attestation.teeAttestation with
    | TeeAttestationOneof.tdxAttestation tee =>
        Except.ok { teeAttestation := MachineStateTee.tdxAttestation tee }
    | other =>
        Except.error ("TEE attestation is " ++ goTypeName other ++ ", expected a TdxAttestation")
  | _ => Except.ok {}

/-- verifyGceTechnology from verify.go. It returns nil when the record holds
    no TEE evidence, and otherwise dispatches on the evidence tag of the
    record itself. The repeated inner type assertion of the source always
    succeeds inside its own switch case, and the default branch is
    unreachable for proto-generated oneof values, so neither appears here. -/
def verifyGceTechnology (env : Env) (attestation : Attestation) (nonce teeNonce : List Nat) :
    Except String Unit :=
  match attestation.teeAttestation with
  | TeeAttestationOneof.unset => Except.ok ()
  | TeeAttestationOneof.tdxAttestation tdxA =>
      let tdxOpts : verifyTdxOpts :=
        if teeNonce.length ≠ 0 then
          { Validation := tdxDefaultValidateOpts teeNonce
            Verification := TdxVerification.defaultOptions }
        else
          { Validation := tdxDefaultValidateOpts nonce
            Verification := TdxVerification.defaultOptions }
      env.verifyTdxAttestation tdxA tdxOpts
  | TeeAttestationOneof.sevSnpAttestation snpA =>
      let snpOpts : verifySnpOpts :=
        if teeNonce.length ≠ 0 then
          { Validation := sevSnpDefaultValidateOpts teeNonce
            Verification := SnpVerification.emptyOptions }
        else
          { Validation := sevSnpDefaultValidateOpts nonce
            Verification := SnpVerification.emptyOptions }
      env.verifySevSnpAttestation snpA snpOpts

/-- VerifyAttestation from verify.go, returning the Go (value, error) pair. -/
def VerifyAttestation (env : Env) (attestationBytes : List Nat) (format : String)
    (nonce teeNonce : List Nat) : Option MachineState × Option String :=
  match
    (if format = "binarypb" then
      match env.protoUnmarshal attestationBytes with
      | Except.error e => Except.error ("fail to unmarshal attestation report: " ++ e)
      | Except.ok a => Except.ok a
    else if format = "textproto" then
      match env.prototextUnmarshalDiscard attestationBytes with
      | Except.error e => Except.error ("fail to unmarshal attestation report: " ++ e)
      | Except.ok a => Except.ok a
    else
      Except.error "format should be either binarypb or textproto" :
        Except String Attestation)
  with
  | Except.error e => (Option.none, Option.some e)
  | Except.ok attestation =>
    match env.decodePublic attestation.akPub with
    | Except.error e => (Option.none, Option.some e)
    | Except.ok pub =>
      match env.publicKey pub with
      | Except.error e => (Option.none, Option.some e)
      | Except.ok cryptoPub =>
        match env.serverVerifyAttestation attestation
            { Nonce := nonce, TrustedAKs := [cryptoPub] } with
        | Except.error e => (Option.none, Option.some ("verifying TPM attestation: " ++ e))
        | Except.ok ms =>
          match verifyGceTechnology env attestation nonce teeNonce with
          | Except.error e => (Option.none, Option.some ("verifying TEE attestation: " ++ e))
          | Except.ok _ =>
            match parseTEEAttestation attestation ms.getPlatformTechnology with
            | Except.error e =>
                (Option.none,
                 Option.some ("failed to parse machineState from TEE attestation: " ++ e))
            | Except.ok teeMS =>
                (Option.some { ms with teeAttestation := teeMS.teeAttestation }, Option.none)

/-- Result of a Go function that returns ([]byte-like value, error) and may
    also panic at runtime. -/
inductive GoResult (α : Type) where
  | ret (val : Option α) (err : Option String)
  | panicked (msg : String)
deriving DecidableEq, Repr

/-- tpm2.AlgRSA numeric algorithm identifier. -/
def AlgRSA : Nat := 1

/-- tpm2.AlgECC numeric algorithm identifier. -/
def AlgECC : Nat := 35

/-- SevSnp constant from attestation.go. -/
def SevSnp : String := "sev-snp"

/-- Tdx constant from attestation.go. -/
def Tdx : String := "tdx"

/-- AttestOptions from attestation.go. KeyAlgo is a tpm2.Algorithm, a
    numeric identifier. -/
structure AttestOptions where
  Key : String
  KeyAlgo : Nat
  Nonce : List Nat
  TeeTechnology : String
  TeeNonce : List Nat
  Format : String
deriving DecidableEq, Repr

/-- DefaultAttestOptions from attestation.go. -/
def DefaultAttestOptions : AttestOptions :=
  { Key := "AK"
    KeyAlgo := AlgRSA
    Nonce := []
    TeeTechnology := ""
    TeeNonce := []
    Format := "binarypb" }

/-- Names of the four key-derivation functions stored in the attestationKeys
    table; each resolves to the corresponding Env capability. -/
inductive KeyFn where
  | attestationKeyRSA
  | attestationKeyECC
  | gceAttestationKeyRSA
  | gceAttestationKeyECC
deriving DecidableEq, Repr

/-- The attestationKeys two-level map from attestation.go. The outer lookup is
    by key name; the inner Go map lookup yields the zero value, a nil
    function, when the algorithm is absent, embedded here as Option.none. -/
def attestationKeys (key : String) : Option (Nat → Option KeyFn) :=
  if key = "AK" then
    Option.some (fun algo =>
      if algo = AlgRSA then Option.some KeyFn.attestationKeyRSA
      else if algo = AlgECC then Option.some KeyFn.attestationKeyECC
      else Option.none)
  else if key = "gceAK" then
    Option.some (fun algo =>
      if algo = AlgRSA then Option.some KeyFn.gceAttestationKeyRSA
      else if algo = AlgECC then Option.some KeyFn.gceAttestationKeyECC
      else Option.none)
  else Option.none

/-- Dispatch a resolved derivation function to its Env capability. -/
def Env.runKeyFn (env : Env) : KeyFn → Except String ClientKey
  | KeyFn.attestationKeyRSA => env.attestationKeyRSA
  | KeyFn.attestationKeyECC => env.attestationKeyECC
  | KeyFn.gceAttestationKeyRSA => env.gceAttestationKeyRSA
  | KeyFn.gceAttestationKeyECC => env.gceAttestationKeyECC

/-- Go %v rendering of an error variable: a nil error prints as the string
    of angle-bracketed nil. -/
def fmtGoErr : Option String → String
  | Option.none => "<nil>"
  | Option.some s => s

/-- getInstanceInfoFromMetadata from attestation.go: five metadata fetches
    and two numeric parses, any failure aborting the whole enrichment. -/
def getInstanceInfoFromMetadata (env : Env) : Except String GCEInstanceInfo := do
  let projectId ← env.projectID
  let projectNumberStr ← env.numericProjectID
  let projectNumber ← env.parseUint projectNumberStr
  let zoneVal ← env.zone
  let instanceIDStr ← env.instanceID
  let instanceId ← env.parseUint instanceIDStr
  let instanceNameVal ← env.instanceName
  Except.ok
    { projectId := projectId
      projectNumber := projectNumber
      zone := zoneVal
      instanceId := instanceId
      instanceName := instanceNameVal }

/-- Attest from attestation.go, step for step. The TPM is opened before any
    option validation. On the key-derivation failure path the source formats
    the stale TPM-open error variable, which is nil there, instead of the
    derivation error, so the message always renders nil. When the inner
    attestationKeys lookup misses, the source invokes the zero-value nil
    function, a runtime panic. -/
def Attest (env : Env) (opts : AttestOptions) : GoResult (List Nat) :=
  match env.openTPM with
  | Except.error e => GoResult.ret Option.none (Option.some ("failed to open TPM: " ++ e))
  | Except.ok _ =>
    if ¬ (opts.Format = "binarypb" ∨ opts.Format = "textproto") then
      GoResult.ret Option.none (Option.some "format should be either binarypb or textproto")
    else
      match attestationKeys opts.Key with
      | Option.none =>
          GoResult.ret Option.none (Option.some "key should be either AK or gceAK")
      | Option.some algoToCreateAK =>
        match algoToCreateAK opts.KeyAlgo with
        | Option.none =>
            GoResult.panicked "runtime error: invalid memory address or nil pointer dereference"
        | Option.some createFunc =>
          match env.runKeyFn createFunc with
          | Except.error _ =>
              GoResult.ret Option.none
                (Option.some ("failed to create attestation key: " ++ fmtGoErr Option.none))
          | Except.ok attestationKey =>
            match
              (if opts.TeeTechnology = SevSnp then
                match env.createSevSnpQuoteProvider with
                | Except.error e =>
                    Except.error ("failed to open " ++ SevSnp ++ " device: " ++ e)
                | Except.ok dev => Except.ok (Option.some dev, opts.TeeNonce)
              else if opts.TeeTechnology = Tdx then
                match env.createTdxQuoteProvider with
                | Except.error e =>
                    Except.error ("failed to create " ++ Tdx ++ " quote provider: " ++ e)
                | Except.ok dev => Except.ok (Option.some dev, opts.TeeNonce)
              else if opts.TeeTechnology = "" then
                if opts.TeeNonce.length ≠ 0 then
                  Except.error
                    "use of TeeNonce requires specifying TEE hardware type with TeeTechnology"
                else Except.ok (Option.none, [])
              else
                Except.error
                  ("tee-technology should be either empty or should have values "
                    ++ SevSnp ++ " or " ++ Tdx) :
                Except String (Option TEEDevice × List Nat))
            with
            | Except.error e => GoResult.ret Option.none (Option.some e)
            | Except.ok (teeDevice, teeNonceField) =>
              match env.getEventLog with
              | Except.error e =>
                  GoResult.ret Option.none
                    (Option.some ("failed to retrieve TCG Event Log: " ++ e))
              | Except.ok tcgEventLog =>
                match env.keyAttest attestationKey
                    { nonce := opts.Nonce
                      teeDevice := teeDevice
                      teeNonce := teeNonceField
                      tcgEventLog := tcgEventLog } with
                | Except.error e =>
                    GoResult.ret Option.none
                      (Option.some ("failed to collect attestation report : " ++ e))
                | Except.ok attestation0 =>
                  match
                    (if opts.Key = "gceAK" then
                      match getInstanceInfoFromMetadata env with
                      | Except.error e => Except.error e
                      | Except.ok info =>
                          Except.ok { attestation0 with instanceInfo := Option.some info }
                    else Except.ok attestation0 : Except String Attestation)
                  with
                  | Except.error e => GoResult.ret Option.none (Option.some e)
                  | Except.ok attestation =>
                    if opts.Format = "binarypb" then
                      match env.protoMarshal attestation with
                      | Except.error _ =>
                          GoResult.ret Option.none
                            (Option.some ("failed to marshal attestation proto: "
                              ++ env.fmtAttestation attestation))
                      | Except.ok out => GoResult.ret (Option.some out) Option.none
                    else
                      GoResult.ret (Option.some (env.prototextFormat attestation)) Option.none

/-- GetAttestation from attestation.go: run Attest, then decode the produced
    bytes with the deserializer matching the requested format. -/
def GetAttestation (env : Env) (opts : AttestOptions) : GoResult Attestation :=
  match Attest env opts with
  | GoResult.panicked m => GoResult.panicked m
  | GoResult.ret _ (Option.some err) => GoResult.ret Option.none (Option.some err)
  | GoResult.ret attestBytesOpt Option.none =>
    let attestBytes := attestBytesOpt.getD []
    if opts.Format = "binarypb" then
      match env.protoUnmarshal attestBytes with
      | Except.error e =>
          GoResult.ret Option.none
            (Option.some ("failed to unmarshal attestation proto: " ++ e))
      | Except.ok a => GoResult.ret (Option.some a) Option.none
    else
      match env.prototextUnmarshal attestBytes with
      | Except.error e =>
          GoResult.ret Option.none
            (Option.some ("failed to unmarshal attestation proto: " ++ e))
      | Except.ok a => GoResult.ret (Option.some a) Option.none

/-- Environment whose every capability is inert: each call fails with a fixed
    message (or yields a fixed trivial value); concrete scenarios override the
    fields they exercise. -/
def inertEnv : Env :=
  { openTPM := Except.ok ()
    attestationKeyRSA := Except.error "unused"
    attestationKeyECC := Except.error "unused"
    gceAttestationKeyRSA := Except.error "unused"
    gceAttestationKeyECC := Except.error "unused"
    createSevSnpQuoteProvider := Except.error "unused"
    createTdxQuoteProvider := Except.error "unused"
    getEventLog := Except.error "unused"
    keyAttest := fun _ _ => Except.error "unused"
    projectID := Except.error "unused"
    numericProjectID := Except.error "unused"
    zone := Except.error "unused"
    instanceID := Except.error "unused"
    instanceName := Except.error "unused"
    parseUint := fun _ => Except.error "unused"
    protoMarshal := fun _ => Except.error "unused"
    prototextFormat := fun _ => []
    fmtAttestation := fun _ => ""
    protoUnmarshal := fun _ => Except.error "unused"
    prototextUnmarshalDiscard := fun _ => Except.error "unused"
    prototextUnmarshal := fun _ => Except.error "unused"
    decodePublic := fun _ => Except.error "unused"
    publicKey := fun _ => Except.error "unused"
    serverVerifyAttestation := fun _ _ => Except.error "unused"
    verifyTdxAttestation := fun _ _ => Except.error "unused"
    verifySevSnpAttestation := fun _ _ => Except.error "unused" }

/-- Concrete TDX quote fixture. -/
def tdxQuoteFix : TdxQuoteV4 := { quoteRaw := [7] }

/-- Concrete SEV-SNP report fixture. -/
def snpReportFix : SevSnpAttestation := { reportRaw := [9] }

/-- Record fixture whose evidence slot holds a TDX quote. -/
def attTdxFix : Attestation :=
  { akPub := [3], quote := [], eventLog := []
    teeAttestation := TeeAttestationOneof.tdxAttestation tdxQuoteFix }

/-- Record fixture whose evidence slot is empty. -/
def attEmptyFix : Attestation := { akPub := [3], quote := [], eventLog := [] }

/-- Base MachineState reporting the given verified technology. -/
def msWithTech (t : GCEConfidentialTechnology) : MachineState :=
  { platform := Option.some { technology := t } }

/-- Scenario: base quote verification reports technology none while the
    record carries a TDX quote, and the TDX verifier rejects. -/
def envTechNoneTdxSlot : Env :=
  { inertEnv with
    protoUnmarshal := fun _ => Except.ok attTdxFix
    decodePublic := fun _ => Except.ok { raw := [] }
    publicKey := fun _ => Except.ok { id := 0 }
    serverVerifyAttestation := fun _ _ =>
      Except.ok (msWithTech GCEConfidentialTechnology.NONE)
    verifyTdxAttestation := fun _ _ => Except.error "tdx verifier invoked" }

/-- C1: counterexample. A record that passes base quote verification with
    verified technology none but carries a TDX evidence variant does not have
    its TEE-layer checks skipped: the TDX verifier runs and its rejection
    fails the whole call, so the dispatch is taken from the untrusted record
    tag, not from the verified platform state. -/
theorem verifyAttestation_runs_tee_verifier_despite_none_technology :
    envTechNoneTdxSlot.serverVerifyAttestation attTdxFix
        { Nonce := [], TrustedAKs := [{ id := 0 }] }
      = Except.ok (msWithTech GCEConfidentialTechnology.NONE)
    ∧ (msWithTech GCEConfidentialTechnology.NONE).getPlatformTechnology
        = GCEConfidentialTechnology.NONE
    ∧ VerifyAttestation envTechNoneTdxSlot [] "binarypb" [] []
        = (Option.none, Option.some "verifying TEE attestation: tdx verifier invoked") :=
  ⟨rfl, rfl, rfl⟩

/-- C1 (amended): whether TEE-layer checks run is decided by the record's own
    evidence tag, never by the verified technology: with an empty evidence
    slot the TEE layer is skipped, and with a populated TDX slot the TDX
    verifier runs and its rejection aborts the call even when the verified
    platform technology is none. -/
theorem verifyAttestation_tee_dispatch_by_record_tag
    (env : Env) (bytes nonce teeNonce : List Nat) (att : Attestation)
    (pub : TPM2Public) (cp : CryptoPublicKey) (ms : MachineState)
    (hdec : env.protoUnmarshal bytes = Except.ok att)
    (hpub : env.decodePublic att.akPub = Except.ok pub)
    (hkey : env.publicKey pub = Except.ok cp)
    (hsv : env.serverVerifyAttestation att { Nonce := nonce, TrustedAKs := [cp] }
        = Except.ok ms)
    (htech : ms.getPlatformTechnology = GCEConfidentialTechnology.NONE) :
    (att.teeAttestation = TeeAttestationOneof.unset →
      VerifyAttestation env bytes "binarypb" nonce teeNonce
        = (Option.some { ms with teeAttestation := MachineStateTee.unset }, Option.none))
    ∧ (∀ q e, att.teeAttestation = TeeAttestationOneof.tdxAttestation q →
        env.verifyTdxAttestation q
          { Validation := tdxDefaultValidateOpts (if teeNonce.length ≠ 0 then teeNonce else nonce)
            Verification := TdxVerification.defaultOptions } = Except.error e →
        VerifyAttestation env bytes "binarypb" nonce teeNonce
          = (Option.none, Option.some ("verifying TEE attestation: " ++ e))) := by
  constructor
  · intro hslot
    simp [VerifyAttestation, hdec, hpub, hkey, hsv, verifyGceTechnology, hslot,
      parseTEEAttestation, htech]
  · intro q e hslot hverr
    by_cases hn : teeNonce.length ≠ 0
    · rw [if_pos hn] at hverr
      simp [VerifyAttestation, hdec, hpub, hkey, hsv, verifyGceTechnology, hslot, hn, hverr]
    · rw [if_neg hn] at hverr
      simp [VerifyAttestation, hdec, hpub, hkey, hsv, verifyGceTechnology, hslot, hn, hverr]

/-- C1 (amended) witness at a concrete scenario. -/
theorem verifyAttestation_tee_dispatch_by_record_tag_witness :
    VerifyAttestation envTechNoneTdxSlot [] "binarypb" [] [0]
      = (Option.none, Option.some ("verifying TEE attestation: " ++ "tdx verifier invoked")) :=
  (verifyAttestation_tee_dispatch_by_record_tag envTechNoneTdxSlot [] [] [0] attTdxFix
      { raw := [] } { id := 0 } (msWithTech GCEConfidentialTechnology.NONE)
      rfl rfl rfl rfl rfl).2 tdxQuoteFix "tdx verifier invoked" rfl rfl

/-- C2: nonce-binding policy. For a record holding a TEE-evidence variant,
    the option set handed to the technology-specific verifier carries as
    expected report data exactly teeNonce when teeNonce is non-empty and
    nonce otherwise. -/
theorem verifyGceTechnology_nonce_binding
    (env : Env) (att : Attestation) (nonce teeNonce : List Nat) :
    (∀ q, att.teeAttestation = TeeAttestationOneof.tdxAttestation q →
      verifyGceTechnology env att nonce teeNonce
        = env.verifyTdxAttestation q
            { Validation := { expectedReportData := if teeNonce = [] then nonce else teeNonce }
              Verification := TdxVerification.defaultOptions })
    ∧ (∀ r, att.teeAttestation = TeeAttestationOneof.sevSnpAttestation r →
      verifyGceTechnology env att nonce teeNonce
        = env.verifySevSnpAttestation r
            { Validation := { expectedReportData := if teeNonce = [] then nonce else teeNonce }
              Verification := SnpVerification.emptyOptions }) := by
  constructor
  · intro q hslot
    cases teeNonce <;> simp [verifyGceTechnology, hslot, tdxDefaultValidateOpts]
  · intro r hslot
    cases teeNonce <;> simp [verifyGceTechnology, hslot, sevSnpDefaultValidateOpts]

/-- C2 witness at a concrete scenario: non-empty teeNonce is the one bound. -/
theorem verifyGceTechnology_nonce_binding_witness :
    verifyGceTechnology inertEnv attTdxFix [1] [2]
      = inertEnv.verifyTdxAttestation tdxQuoteFix
          { Validation := { expectedReportData := [2] }
            Verification := TdxVerification.defaultOptions } :=
  (verifyGceTechnology_nonce_binding inertEnv attTdxFix [1] [2]).1 tdxQuoteFix rfl

/-- Scenario: base quote verification reports the technology AMD_SEV, which
    is neither none nor sev-snp nor tdx, over a record with an empty
    evidence slot. -/
def envTechAmdSev : Env :=
  { inertEnv with
    protoUnmarshal := fun _ => Except.ok attEmptyFix
    decodePublic := fun _ => Except.ok { raw := [] }
    publicKey := fun _ => Except.ok { id := 0 }
    serverVerifyAttestation := fun _ _ =>
      Except.ok (msWithTech GCEConfidentialTechnology.AMD_SEV) }

/-- C3: counterexample. With verified technology AMD_SEV (neither none nor
    sev-snp nor tdx) the call does not fail with any error: it succeeds and
    returns a MachineState, because the technology dispatch of
    parseTEEAttestation sends every unlisted technology to the default branch
    that returns an empty MachineState and a nil error. -/
theorem verifyAttestation_unknown_technology_accepted :
    envTechAmdSev.serverVerifyAttestation attEmptyFix
        { Nonce := [], TrustedAKs := [{ id := 0 }] }
      = Except.ok (msWithTech GCEConfidentialTechnology.AMD_SEV)
    ∧ GCEConfidentialTechnology.AMD_SEV ≠ GCEConfidentialTechnology.NONE
    ∧ GCEConfidentialTechnology.AMD_SEV ≠ GCEConfidentialTechnology.AMD_SEV_SNP
    ∧ GCEConfidentialTechnology.AMD_SEV ≠ GCEConfidentialTechnology.INTEL_TDX
    ∧ VerifyAttestation envTechAmdSev [] "binarypb" [] []
        = (Option.some (msWithTech GCEConfidentialTechnology.AMD_SEV), Option.none) :=
  ⟨rfl, by decide, by decide, by decide, rfl⟩

/-- C3 (amended): a verified technology other than sev-snp and tdx (including
    unknown values such as AMD_SEV) is treated exactly like none: no
    UnsupportedTechnology failure exists, no TEE evidence is merged, and with
    an empty evidence slot the call succeeds with the base MachineState. -/
theorem verifyAttestation_unknown_technology_treated_as_none
    (env : Env) (bytes nonce teeNonce : List Nat) (att : Attestation)
    (pub : TPM2Public) (cp : CryptoPublicKey) (ms : MachineState)
    (hdec : env.protoUnmarshal bytes = Except.ok att)
    (hpub : env.decodePublic att.akPub = Except.ok pub)
    (hkey : env.publicKey pub = Except.ok cp)
    (hsv : env.serverVerifyAttestation att { Nonce := nonce, TrustedAKs := [cp] }
        = Except.ok ms)
    (hsnp : ms.getPlatformTechnology ≠ GCEConfidentialTechnology.AMD_SEV_SNP)
    (htdx : ms.getPlatformTechnology ≠ GCEConfidentialTechnology.INTEL_TDX)
    (hslot : att.teeAttestation = TeeAttestationOneof.unset) :
    VerifyAttestation env bytes "binarypb" nonce teeNonce
      = (Option.some { ms with teeAttestation := MachineStateTee.unset }, Option.none) := by
  cases htech : ms.getPlatformTechnology with
  | AMD_SEV_SNP => exact absurd htech hsnp
  | INTEL_TDX => exact absurd htech htdx
  | _ =>
    simp [VerifyAttestation, hdec, hpub, hkey, hsv, verifyGceTechnology, hslot,
      parseTEEAttestation, htech]

/-- C3 (amended) witness at a concrete scenario. -/
theorem verifyAttestation_unknown_technology_treated_as_none_witness :
    VerifyAttestation envTechAmdSev [] "binarypb" [] [5]
      = (Option.some (msWithTech GCEConfidentialTechnology.AMD_SEV), Option.none) :=
  verifyAttestation_unknown_technology_treated_as_none envTechAmdSev [] [] [5] attEmptyFix
    { raw := [] } { id := 0 } (msWithTech GCEConfidentialTechnology.AMD_SEV)
    rfl rfl rfl rfl (by decide) (by decide) rfl

/-- C4: a record whose verified technology is sev-snp or tdx but whose
    evidence slot does not hold the matching variant is never accepted:
    the call returns no MachineState and carries an error, and whenever the
    TEE-evidence verification stage itself passes, the error is precisely the
    type-mismatch failure raised while parsing the TEE attestation. -/
theorem verifyAttestation_mismatched_evidence_never_accepted
    (env : Env) (bytes : List Nat) (format : String) (nonce teeNonce : List Nat)
    (att : Attestation) (pub : TPM2Public) (cp : CryptoPublicKey) (ms : MachineState)
    (hdec : (format = "binarypb" ∧ env.protoUnmarshal bytes = Except.ok att)
          ∨ (format = "textproto" ∧ env.prototextUnmarshalDiscard bytes = Except.ok att))
    (hpub : env.decodePublic att.akPub = Except.ok pub)
    (hkey : env.publicKey pub = Except.ok cp)
    (hsv : env.serverVerifyAttestation att { Nonce := nonce, TrustedAKs := [cp] }
        = Except.ok ms)
    (hmm : (ms.getPlatformTechnology = GCEConfidentialTechnology.AMD_SEV_SNP
            ∧ ∀ r, att.teeAttestation ≠ TeeAttestationOneof.sevSnpAttestation r)
         ∨ (ms.getPlatformTechnology = GCEConfidentialTechnology.INTEL_TDX
            ∧ ∀ q, att.teeAttestation ≠ TeeAttestationOneof.tdxAttestation q)) :
    (VerifyAttestation env bytes format nonce teeNonce).1 = Option.none
    ∧ (VerifyAttestation env bytes format nonce teeNonce).2.isSome
    ∧ (verifyGceTechnology env att nonce teeNonce = Except.ok () →
        ∃ e, VerifyAttestation env bytes format nonce teeNonce
          = (Option.none,
             Option.some ("failed to parse machineState from TEE attestation: " ++ e))) := by
  have hparse : ∃ e, parseTEEAttestation att ms.getPlatformTechnology = Except.error e := by
    rcases hmm with ⟨htech, hne⟩ | ⟨htech, hne⟩
    · rw [htech]
      cases hslot : att.teeAttestation with
      | unset =>
          refine ⟨"TEE attestation is " ++ goTypeName TeeAttestationOneof.unset
            ++ ", expected a SevSnpAttestation", ?_⟩
          simp [parseTEEAttestation, hslot]
      | sevSnpAttestation r => exact absurd hslot (hne r)
      | tdxAttestation q =>
          refine ⟨"TEE attestation is " ++ goTypeName (TeeAttestationOneof.tdxAttestation q)
            ++ ", expected a SevSnpAttestation", ?_⟩
          simp [parseTEEAttestation, hslot]
    · rw [htech]
      cases hslot : att.teeAttestation with
      | unset =>
          refine ⟨"TEE attestation is " ++ goTypeName TeeAttestationOneof.unset
            ++ ", expected a TdxAttestation", ?_⟩
          simp [parseTEEAttestation, hslot]
      | sevSnpAttestation r =>
          refine ⟨"TEE attestation is " ++ goTypeName (TeeAttestationOneof.sevSnpAttestation r)
            ++ ", expected a TdxAttestation", ?_⟩
          simp [parseTEEAttestation, hslot]
      | tdxAttestation q => exact absurd hslot (hne q)
  obtain ⟨pe, hpe⟩ := hparse
  rcases hdec with ⟨hf, hu⟩ | ⟨hf, hu⟩
  · subst hf
    cases hgce : verifyGceTechnology env att nonce teeNonce with
    | error e =>
        refine ⟨?_, ?_, ?_⟩
        · simp [VerifyAttestation, hu, hpub, hkey, hsv, hgce]
        · simp [VerifyAttestation, hu, hpub, hkey, hsv, hgce]
        · intro hok
          exact Except.noConfusion hok
    | ok u =>
        refine ⟨?_, ?_, ?_⟩
        · simp [VerifyAttestation, hu, hpub, hkey, hsv, hgce, hpe]
        · simp [VerifyAttestation, hu, hpub, hkey, hsv, hgce, hpe]
        · exact fun _ => ⟨pe, by simp [VerifyAttestation, hu, hpub, hkey, hsv, hgce, hpe]⟩
  · subst hf
    cases hgce : verifyGceTechnology env att nonce teeNonce with
    | error e =>
        refine ⟨?_, ?_, ?_⟩
        · simp [VerifyAttestation, hu, hpub, hkey, hsv, hgce]
        · simp [VerifyAttestation, hu, hpub, hkey, hsv, hgce]
        · intro hok
          exact Except.noConfusion hok
    | ok u =>
        refine ⟨?_, ?_, ?_⟩
        · simp [VerifyAttestation, hu, hpub, hkey, hsv, hgce, hpe]
        · simp [VerifyAttestation, hu, hpub, hkey, hsv, hgce, hpe]
        · exact fun _ => ⟨pe, by simp [VerifyAttestation, hu, hpub, hkey, hsv, hgce, hpe]⟩

/-- Scenario: verified technology sev-snp while the evidence slot holds a TDX
    quote that the TDX verifier accepts. -/
def envSnpTechTdxSlot : Env :=
  { inertEnv with
    protoUnmarshal := fun _ => Except.ok attTdxFix
    decodePublic := fun _ => Except.ok { raw := [] }
    publicKey := fun _ => Except.ok { id := 0 }
    serverVerifyAttestation := fun _ _ =>
      Except.ok (msWithTech GCEConfidentialTechnology.AMD_SEV_SNP)
    verifyTdxAttestation := fun _ _ => Except.ok () }

/-- C4 witness at a concrete scenario: verified technology SEV-SNP with a TDX
    quote in the slot is rejected with the type-mismatch failure. -/
theorem verifyAttestation_mismatched_evidence_never_accepted_witness :
    (VerifyAttestation envSnpTechTdxSlot [] "binarypb" [] []).1 = Option.none
    ∧ (VerifyAttestation envSnpTechTdxSlot [] "binarypb" [] []).2.isSome
    ∧ ∃ e, VerifyAttestation envSnpTechTdxSlot [] "binarypb" [] []
        = (Option.none,
           Option.some ("failed to parse machineState from TEE attestation: " ++ e)) := by
  have h := verifyAttestation_mismatched_evidence_never_accepted envSnpTechTdxSlot [] "binarypb"
    [] [] attTdxFix { raw := [] } { id := 0 } (msWithTech GCEConfidentialTechnology.AMD_SEV_SNP)
    (Or.inl ⟨rfl, rfl⟩) rfl rfl rfl
    (Or.inl ⟨rfl, by intro r hr; cases hr⟩)
  exact ⟨h.1, h.2.1, h.2.2 rfl⟩

/-- C8: whenever VerifyAttestation carries an error, the MachineState
    component of the returned pair is nil: no partial MachineState is ever
    returned alongside or instead of an error. -/
theorem verifyAttestation_no_partial_machine_state
    (env : Env) (bytes : List Nat) (format : String) (nonce teeNonce : List Nat)
    (msOpt : Option MachineState) (e : String)
    (h : VerifyAttestation env bytes format nonce teeNonce = (msOpt, Option.some e)) :
    msOpt = Option.none := by
  unfold VerifyAttestation at h
  repeat' split at h
  all_goals simp_all

/-- C8 witness at a concrete scenario: a failing call carries no
    MachineState. -/
theorem verifyAttestation_no_partial_machine_state_witness :
    VerifyAttestation inertEnv [] "bogus" [] []
      = (Option.none, Option.some "format should be either binarypb or textproto")
    ∧ (Option.none : Option MachineState) = Option.none :=
  ⟨rfl, verifyAttestation_no_partial_machine_state inertEnv [] "bogus" [] [] Option.none
      "format should be either binarypb or textproto" rfl⟩

/-- Options with a recognized Key but an algorithm outside RSA and ECC
    (11 is the tpm2 identifier of SHA256). -/
def optsBadAlgo : AttestOptions :=
  { Key := "AK", KeyAlgo := 11, Nonce := [], TeeTechnology := "", TeeNonce := []
    Format := "binarypb" }

/-- C5: at a recognized Key with an unrecognized KeyAlgo, Attest reaches the
    inner table miss and invokes the zero-value nil derivation function,
    a runtime panic instead of a clean InvalidArgument error. -/
theorem attest_unrecognized_keyalgo_panics :
    (attestationKeys optsBadAlgo.Key).isSome = true
    ∧ optsBadAlgo.KeyAlgo ≠ AlgRSA
    ∧ optsBadAlgo.KeyAlgo ≠ AlgECC
    ∧ Attest inertEnv optsBadAlgo
        = GoResult.panicked "runtime error: invalid memory address or nil pointer dereference" :=
  ⟨rfl, by decide, by decide, rfl⟩

/-- Options whose Format is neither binarypb nor textproto. -/
def optsBadFormat : AttestOptions :=
  { Key := "AK", KeyAlgo := AlgRSA, Nonce := [], TeeTechnology := "", TeeNonce := []
    Format := "json" }

/-- Environment whose TPM device cannot be opened. -/
def envNoTPM : Env := { inertEnv with openTPM := Except.error "no TPM device" }

/-- Environment whose RSA attestation-key derivation fails. -/
def envDerivationFails : Env :=
  { inertEnv with attestationKeyRSA := Except.error "derivation refused" }

/-- C6: counterexample. With an invalid Format, the TPM device open still
    happens first: when the open fails, the call reports the device failure,
    not the format InvalidArgument failure, so the format rejection does not
    precede touching hardware. -/
theorem attest_invalid_format_after_device_open :
    optsBadFormat.Format ≠ "binarypb"
    ∧ optsBadFormat.Format ≠ "textproto"
    ∧ Attest envNoTPM optsBadFormat
        = GoResult.ret Option.none (Option.some "failed to open TPM: no TPM device")
    ∧ Attest envNoTPM optsBadFormat
        ≠ GoResult.ret Option.none
            (Option.some "format should be either binarypb or textproto") := by
  refine ⟨by decide, by decide, rfl, by decide⟩

/-- C6 (amended): once the TPM open step succeeds, an invalid Format is
    rejected with the InvalidArgument failure before key derivation, TEE
    evidence-provider open, or event-log read: the result is the format error
    for every behavior of those capabilities. -/
theorem attest_invalid_format_rejected_before_other_steps
    (env : Env) (opts : AttestOptions)
    (hopen : env.openTPM = Except.ok ())
    (hb : opts.Format ≠ "binarypb") (ht : opts.Format ≠ "textproto") :
    Attest env opts
      = GoResult.ret Option.none
          (Option.some "format should be either binarypb or textproto") := by
  simp [Attest, hopen, hb, ht]

/-- C6 (amended) witness at a concrete scenario. -/
theorem attest_invalid_format_rejected_before_other_steps_witness :
    Attest inertEnv optsBadFormat
      = GoResult.ret Option.none
          (Option.some "format should be either binarypb or textproto") :=
  attest_invalid_format_rejected_before_other_steps inertEnv optsBadFormat rfl
    (by decide) (by decide)

/-- Options carrying a TeeNonce while TeeTechnology is empty. -/
def optsTeeNonceNoTech : AttestOptions :=
  { Key := "AK", KeyAlgo := AlgRSA, Nonce := [], TeeTechnology := "", TeeNonce := [4]
    Format := "binarypb" }

/-- C7: counterexample. A non-empty TeeNonce with empty TeeTechnology is not
    rejected before device access: the TPM open happens first (its failure is
    what the call reports), and when the open succeeds the attestation-key
    derivation also runs before the TeeNonce validation (a derivation failure
    is what the call reports). -/
theorem attest_teenonce_check_after_device_access :
    optsTeeNonceNoTech.TeeTechnology = ""
    ∧ optsTeeNonceNoTech.TeeNonce ≠ []
    ∧ Attest envNoTPM optsTeeNonceNoTech
        = GoResult.ret Option.none (Option.some "failed to open TPM: no TPM device")
    ∧ Attest envDerivationFails optsTeeNonceNoTech
        = GoResult.ret Option.none
            (Option.some ("failed to create attestation key: " ++ fmtGoErr Option.none))
    ∧ Attest envNoTPM optsTeeNonceNoTech
        ≠ GoResult.ret Option.none
            (Option.some
              "use of TeeNonce requires specifying TEE hardware type with TeeTechnology") := by
  refine ⟨rfl, by decide, rfl, rfl, by decide⟩

/-- C7 (amended): the TeeNonce-with-empty-TeeTechnology misuse is rejected
    with the InvalidArgument failure only after TPM open and key derivation,
    but before any TEE evidence provider is opened and before the event log
    is read: under successful open and derivation the result is that error
    for every behavior of the provider and event-log capabilities. -/
theorem attest_teenonce_without_tech_rejected
    (env : Env) (opts : AttestOptions) (amap : Nat → Option KeyFn) (kf : KeyFn) (k : ClientKey)
    (hopen : env.openTPM = Except.ok ())
    (hfmt : opts.Format = "binarypb" ∨ opts.Format = "textproto")
    (hkeys : attestationKeys opts.Key = Option.some amap)
    (hfn : amap opts.KeyAlgo = Option.some kf)
    (hder : env.runKeyFn kf = Except.ok k)
    (htech : opts.TeeTechnology = "")
    (hnonce : opts.TeeNonce ≠ []) :
    Attest env opts
      = GoResult.ret Option.none
          (Option.some
            "use of TeeNonce requires specifying TEE hardware type with TeeTechnology") := by
  have hlen : opts.TeeNonce.length ≠ 0 := fun h => hnonce (List.length_eq_zero.mp h)
  rcases hfmt with hf | hf <;>
    simp [Attest, hopen, hf, hkeys, hfn, hder, htech, SevSnp, Tdx, hlen]

/-- Environment whose RSA attestation-key derivation succeeds. -/
def envKeyOk : Env := { inertEnv with attestationKeyRSA := Except.ok { id := 0 } }

/-- C7 (amended) witness at a concrete scenario. -/
theorem attest_teenonce_without_tech_rejected_witness :
    Attest envKeyOk optsTeeNonceNoTech
      = GoResult.ret Option.none
          (Option.some
            "use of TeeNonce requires specifying TEE hardware type with TeeTechnology") :=
  attest_teenonce_without_tech_rejected envKeyOk optsTeeNonceNoTech _
    KeyFn.attestationKeyRSA { id := 0 } rfl (Or.inl rfl) rfl rfl rfl rfl (by decide)

/-- C10: when the TPM opens and the resolved key-derivation function fails,
    the returned error formats the stale TPM-open error variable, nil at that
    point, instead of the derivation error: the result is the same value for
    every derivation failure, and its message renders the nil error. -/
theorem attest_key_derivation_error_dropped
    (env : Env) (opts : AttestOptions) (amap : Nat → Option KeyFn) (kf : KeyFn) (e : String)
    (hopen : env.openTPM = Except.ok ())
    (hfmt : opts.Format = "binarypb" ∨ opts.Format = "textproto")
    (hkeys : attestationKeys opts.Key = Option.some amap)
    (hfn : amap opts.KeyAlgo = Option.some kf)
    (hder : env.runKeyFn kf = Except.error e) :
    Attest env opts
      = GoResult.ret Option.none
          (Option.some ("failed to create attestation key: " ++ fmtGoErr Option.none))
    ∧ fmtGoErr Option.none = "<nil>" := by
  refine ⟨?_, rfl⟩
  rcases hfmt with hf | hf <;>
    simp [Attest, hopen, hf, hkeys, hfn, hder]

/-- C10 witness at a concrete scenario. -/
theorem attest_key_derivation_error_dropped_witness :
    Attest envDerivationFails DefaultAttestOptions
      = GoResult.ret Option.none
          (Option.some ("failed to create attestation key: " ++ fmtGoErr Option.none))
    ∧ fmtGoErr Option.none = "<nil>" :=
  attest_key_derivation_error_dropped envDerivationFails DefaultAttestOptions _
    KeyFn.attestationKeyRSA "derivation refused" rfl (Or.inl rfl) rfl rfl rfl

/-- C9: the binary and the text serialization of the same logical record
    decode back, via the matching deserializer of GetAttestation, to
    structurally equal records. The hypotheses describe one production
    pipeline outcome (any TEE technology path, with or without
    instance-info enrichment, the pipeline not depending on Format) together
    with the protobuf codec round-trip contract at the produced record; the
    two calls differing only in Format then return the same record. -/
theorem getAttestation_binary_text_roundtrip_equiv
    (env : Env) (opts : AttestOptions) (amap : Nat → Option KeyFn) (kf : KeyFn)
    (key : ClientKey) (log : List Nat) (att0 a : Attestation) (bb : List Nat)
    (dev : Option TEEDevice) (tn : List Nat)
    (hopen : env.openTPM = Except.ok ())
    (hkeys : attestationKeys opts.Key = Option.some amap)
    (hfn : amap opts.KeyAlgo = Option.some kf)
    (hder : env.runKeyFn kf = Except.ok key)
    (hdev : (opts.TeeTechnology = SevSnp
              ∧ ∃ d, env.createSevSnpQuoteProvider = Except.ok d
                  ∧ dev = Option.some d ∧ tn = opts.TeeNonce)
          ∨ (opts.TeeTechnology = Tdx
              ∧ ∃ d, env.createTdxQuoteProvider = Except.ok d
                  ∧ dev = Option.some d ∧ tn = opts.TeeNonce)
          ∨ (opts.TeeTechnology = "" ∧ opts.TeeNonce = []
              ∧ dev = Option.none ∧ tn = []))
    (hlog : env.getEventLog = Except.ok log)
    (hatt : env.keyAttest key
        { nonce := opts.Nonce, teeDevice := dev, teeNonce := tn, tcgEventLog := log }
        = Except.ok att0)
    (hinfo : (opts.Key = "gceAK"
              ∧ ∃ info, getInstanceInfoFromMetadata env = Except.ok info
                  ∧ a = { att0 with instanceInfo := Option.some info })
           ∨ (opts.Key ≠ "gceAK" ∧ a = att0))
    (hmb : env.protoMarshal a = Except.ok bb)
    (hrtB : env.protoUnmarshal bb = Except.ok a)
    (hrtT : env.prototextUnmarshal (env.prototextFormat a) = Except.ok a) :
    GetAttestation env { opts with Format := "binarypb" }
      = GoResult.ret (Option.some a) Option.none
    ∧ GetAttestation env { opts with Format := "textproto" }
      = GoResult.ret (Option.some a) Option.none := by
  rcases hdev with ⟨hs, d, hd1, hdev2, htn⟩ | ⟨hs, d, hd1, hdev2, htn⟩ |
    ⟨hs, hn, hdev2, htn⟩
  · subst hdev2; subst htn
    rcases hinfo with ⟨hg, info, hi1, hia⟩ | ⟨hg, hia⟩ <;> subst hia
    · refine ⟨?_, ?_⟩ <;>
        · simp [GetAttestation, Attest, hopen, hkeys, hfn, hder, hs, hd1, hlog, hatt,
            SevSnp, Tdx]
          simp [hg, hi1, hmb, hrtB, hrtT]
    · refine ⟨?_, ?_⟩ <;>
        · simp [GetAttestation, Attest, hopen, hkeys, hfn, hder, hs, hd1, hlog, hatt,
            SevSnp, Tdx]
          simp [hg, hmb, hrtB, hrtT]
  · subst hdev2; subst htn
    rcases hinfo with ⟨hg, info, hi1, hia⟩ | ⟨hg, hia⟩ <;> subst hia
    · refine ⟨?_, ?_⟩ <;>
        · simp [GetAttestation, Attest, hopen, hkeys, hfn, hder, hs, hd1, hlog, hatt,
            SevSnp, Tdx]
          simp [hg, hi1, hmb, hrtB, hrtT]
    · refine ⟨?_, ?_⟩ <;>
        · simp [GetAttestation, Attest, hopen, hkeys, hfn, hder, hs, hd1, hlog, hatt,
            SevSnp, Tdx]
          simp [hg, hmb, hrtB, hrtT]
  · subst hdev2; subst htn
    rcases hinfo with ⟨hg, info, hi1, hia⟩ | ⟨hg, hia⟩ <;> subst hia
    · refine ⟨?_, ?_⟩ <;>
        · simp [GetAttestation, Attest, hopen, hkeys, hfn, hder, hs, hn, hlog, hatt,
            SevSnp, Tdx]
          simp [hg, hi1, hmb, hrtB, hrtT]
    · refine ⟨?_, ?_⟩ <;>
        · simp [GetAttestation, Attest, hopen, hkeys, hfn, hder, hs, hn, hlog, hatt,
            SevSnp, Tdx]
          simp [hg, hmb, hrtB, hrtT]

/-- Record fixture produced by the round-trip scenario. -/
def attProduced : Attestation := { akPub := [1], quote := [2], eventLog := [3] }

/-- Scenario: the production pipeline succeeds and both codecs round-trip the
    produced record. -/
def envRoundTrip : Env :=
  { inertEnv with
    attestationKeyRSA := Except.ok { id := 0 }
    getEventLog := Except.ok [3]
    keyAttest := fun _ _ => Except.ok attProduced
    protoMarshal := fun _ => Except.ok [9, 9]
    prototextFormat := fun _ => [8]
    protoUnmarshal := fun _ => Except.ok attProduced
    prototextUnmarshal := fun _ => Except.ok attProduced }

/-- C9 witness at a concrete scenario. -/
theorem getAttestation_binary_text_roundtrip_equiv_witness :
    GetAttestation envRoundTrip { DefaultAttestOptions with Format := "binarypb" }
      = GoResult.ret (Option.some attProduced) Option.none
    ∧ GetAttestation envRoundTrip { DefaultAttestOptions with Format := "textproto" }
      = GoResult.ret (Option.some attProduced) Option.none :=
  getAttestation_binary_text_roundtrip_equiv envRoundTrip DefaultAttestOptions _
    KeyFn.attestationKeyRSA { id := 0 } [3] attProduced attProduced [9, 9]
    Option.none []
    rfl rfl rfl rfl
    (Or.inr (Or.inr ⟨rfl, rfl, rfl, rfl⟩))
    rfl rfl
    (Or.inr ⟨by decide, rfl⟩)
    rfl rfl rfl
